import Mathlib

/-!
Shallow embedding of the CORS preflight middleware
(src/middleware/cors.go) and of the mock document store
(src/db/mock.go) of the teach-la-go-backend repository,
with theorems settling the specification claims about them.
-/

namespace Cors

/-- Go `strings.ToUpper` as used on HTTP header tokens: each lowercase
ASCII letter is mapped to its uppercase form, every other character is
unchanged.  (Go applies Unicode simple uppercasing, which agrees with
this on the ASCII header field names this middleware compares.) -/
def goToUpper (s : String) : String := String.mk (s.data.map Char.toUpper)

/-- Character-level worker for Go `strings.Split(s, ", ")`: scanning
left to right, each non-overlapping occurrence of the two-character
separator `", "` ends the current token; the empty input yields the
single empty token, exactly as `strings.Split` does. -/
def splitCS : List Char → List (List Char)
  | [] => [[]]
  | ',' :: ' ' :: rest => [] :: splitCS rest
  | c :: rest =>
    match splitCS rest with
    | [] => [[c]]
    | t :: ts => (c :: t) :: ts

/-- Go `strings.Split(s, ", ")`, the only form of `strings.Split` the
middleware calls (src/middleware/cors.go line 113). -/
def goSplitCommaSpace (s : String) : List String :=
  (splitCS s.data).map (fun cs => String.mk cs)

/-- Go conversion of an unsigned integer to a string, `string(i)`:
the UTF-8 string of the single code point `i`, or the replacement
character U+FFFD when `i` is a surrogate or exceeds U+10FFFF
(Go spec, "Conversions to and from a string type").  This is what
`string(c.MaxAge)` on line 144 of src/middleware/cors.go computes:
a rune conversion, not a decimal rendering. -/
def goStringOfCodePoint (n : Nat) : String :=
  if n < 0xd800 ∨ (0xdfff < n ∧ n < 0x110000) then
    String.singleton (Char.ofNat n)
  else
    String.singleton (Char.ofNat 0xfffd)

/-- An HTTP request as the middleware observes it: the method token and
the header map.  Header keys are taken to be stored in their canonical
MIME form ("Origin", "Access-Control-Request-Method", ...), which is
what Go's `http.Header` does. -/
structure Request where
  method : String
  headers : List (String × String)
deriving Repr, DecidableEq

/-- Go `r.Header.Get(k)`: the value of the first header named `k`,
or the empty string when the header is absent. -/
def Request.get (r : Request) (k : String) : String :=
  ((r.headers.find? (fun p => p.1 == k)).map Prod.snd).getD ""

/-- The response produced by a handler: status code, response headers
(in the order they were set) and body. -/
structure Response where
  status : Nat
  headers : List (String × String)
  body : String
deriving Repr, DecidableEq

/-- Lookup of a response header, `none` when never set. -/
def Response.getHeader (resp : Response) (k : String) : Option String :=
  (resp.headers.find? (fun p => p.1 == k)).map Prod.snd

/-- An `http.Handler`: a function from requests to responses. -/
def Handler : Type := Request → Response

/-- Structure `CORSConfig` from src/middleware/cors.go lines 20 to 26.
`MaxAge` is a Go `uint32`; it is only ever compared with 0 and
converted to a string, so no modular arithmetic arises. -/
structure CORSConfig where
  AllowedOrigins : List String
  AllowedMethods : List String
  AllowedHeaders : List String
  SupportsCredentials : Bool
  MaxAge : Nat
deriving Repr

/-- Method `(*CORSConfig).OriginSupported`, src/middleware/cors.go
lines 43 to 57: false on the empty origin, otherwise true iff the
origin is a case-sensitive match for some allowed origin. -/
def CORSConfig.OriginSupported (c : CORSConfig) (requestOrigin : String) : Bool :=
  if requestOrigin = "" then false
  else c.AllowedOrigins.any (fun o => requestOrigin == o)

/-- Method `(*CORSConfig).MethodSupported`, src/middleware/cors.go
lines 61 to 75: false on the empty method, otherwise true iff the
method is a case-sensitive match for some allowed method. -/
def CORSConfig.MethodSupported (c : CORSConfig) (requestMethod : String) : Bool :=
  if requestMethod = "" then false
  else c.AllowedMethods.any (fun m => requestMethod == m)

/-- Method `(*CORSConfig).HeadersSupported`, src/middleware/cors.go
lines 79 to 103: true on the empty list, otherwise every request
header field name must match some allowed header up to
`strings.ToUpper`. -/
def CORSConfig.HeadersSupported (c : CORSConfig)
    (requestHeaderFieldNames : List String) : Bool :=
  if requestHeaderFieldNames.length = 0 then true
  else requestHeaderFieldNames.all (fun requestHeader =>
    c.AllowedHeaders.any (fun supportedHeader =>
      goToUpper requestHeader == goToUpper supportedHeader))

/-- The rejection response of the middleware: `w.WriteHeader(400)`
with no headers set and no body written. -/
def badRequestResponse : Response :=
  { status := 400, headers := [], body := "" }

/-- Function `WithCORSConfig`, src/middleware/cors.go lines 108 to
153.  The `w.Header().Set` calls, all with distinct keys, are
modelled by the list of header pairs in the order they are set. -/
def withCORSConfig (next : Handler) (c : CORSConfig) : Handler := fun r =>
  if r.method = "OPTIONS" then
    let origin := r.get "Origin"
    let method := r.get "Access-Control-Request-Method"
    let headerFieldNames := goSplitCommaSpace (r.get "Access-Control-Request-Headers")
    if !(c.OriginSupported origin) ||
       !(c.MethodSupported method) ||
       !(c.HeadersSupported headerFieldNames) then
      badRequestResponse
    else
      { status := 200
        headers :=
          (if c.SupportsCredentials then
            [("Access-Control-Allow-Credentials", "true")]
          else []) ++
          [("Access-Control-Allow-Origin", origin)] ++
          (if c.MaxAge ≠ 0 then
            [("Access-Control-Max-Age", goStringOfCodePoint c.MaxAge)]
          else [])
        body := "" }
  else next r

/-- The default configuration `defaultCfg` built inside `WithCORS`,
src/middleware/cors.go lines 159 to 183.  `SupportsCredentials` and
`MaxAge` are absent from the Go struct literal, hence take their zero
values. -/
def defaultCfg : CORSConfig :=
  { AllowedHeaders := ["Content-Type"]
    AllowedMethods :=
      ["CONNECT", "DELETE", "GET", "HEAD", "OPTIONS", "PATCH", "POST", "PUT", "TRACE"]
    AllowedOrigins := ["*"]
    SupportsCredentials := false
    MaxAge := 0 }

/-- Function `WithCORS`, src/middleware/cors.go lines 159 to 183:
the middleware bound to the default configuration. -/
def withCORS (next : Handler) : Handler :=
  withCORSConfig next defaultCfg

/-- A concrete inner handler used to evaluate the middleware at closed
inputs. -/
def idleNext : Handler := fun _ => { status := 418, headers := [], body := "inner" }

/-- A second concrete inner handler, distinguishable from `idleNext`,
used to observe whether the middleware ever consults its inner
handler. -/
def otherNext : Handler := fun _ => { status := 503, headers := [], body := "other" }

/-- The concrete test policy of spec section 8: one allowed origin,
one allowed method, one allowed header, no credentials, no max age. -/
def testCfg : CORSConfig :=
  { AllowedOrigins := ["https://a.test"]
    AllowedMethods := ["POST"]
    AllowedHeaders := ["Content-Type"]
    SupportsCredentials := false
    MaxAge := 0 }

/-- The same policy as `testCfg` but with a non-zero `MaxAge`. -/
def maxAgeCfg : CORSConfig :=
  { AllowedOrigins := ["https://a.test"]
    AllowedMethods := ["POST"]
    AllowedHeaders := ["Content-Type"]
    SupportsCredentials := false
    MaxAge := 600 }

/-- A preflight probe that `testCfg` accepts. -/
def okReq : Request :=
  { method := "OPTIONS"
    headers := [("Origin", "https://a.test"),
                ("Access-Control-Request-Method", "POST"),
                ("Access-Control-Request-Headers", "Content-Type")] }

/-- A preflight probe with an origin outside `testCfg`'s allow-set. -/
def badOriginReq : Request :=
  { method := "OPTIONS"
    headers := [("Origin", "https://b.test"),
                ("Access-Control-Request-Method", "POST"),
                ("Access-Control-Request-Headers", "Content-Type")] }

/-- A preflight probe whose `Access-Control-Request-Headers` header is
absent, while origin and method are allowed by `testCfg`. -/
def noACRHReq : Request :=
  { method := "OPTIONS"
    headers := [("Origin", "https://a.test"),
                ("Access-Control-Request-Method", "POST")] }

/-- A non-probe request (method GET). -/
def getReq : Request :=
  { method := "GET"
    headers := [("Origin", "https://a.test")] }

/-- A preflight probe carrying no headers at all. -/
def bareOptionsReq : Request :=
  { method := "OPTIONS", headers := [] }

end Cors

namespace Db

/-- Modelled from the spec: the `User` document type is declared
outside src/ (db/user.go); the mock store only reads its `UID` key
field, so the remaining document fields are abstracted as an opaque
association list.  The zero value has every field empty. -/
structure User where
  UID : String
  fields : List (String × String)
deriving Repr, DecidableEq

/-- Modelled from the spec: the `Program` document type is declared
outside src/; the mock store only reads its `UID` key field. -/
structure Program where
  UID : String
  fields : List (String × String)
deriving Repr, DecidableEq

/-- Modelled from the spec: the `Class` document type is declared
outside src/; the mock store only reads its `CID` key field. -/
structure Class where
  CID : String
  fields : List (String × String)
deriving Repr, DecidableEq

/-- Modelled from the spec: the collection path constants are declared
outside src/; they are three distinct keys naming the Users, Programs
and Classes collections of the store.  None of the proved facts
depends on their concrete values. -/
def usersPath : String := "users"

/-- Modelled from the spec: the Programs collection path constant. -/
def programsPath : String := "programs"

/-- Modelled from the spec: the Classes collection path constant. -/
def classesPath : String := "classes"

/-- A value held in one of the store's `interface{}`-typed cells; the
Go type assertions `.(User)`, `.(Program)`, `.(Class)` are the match
arms of this sum. -/
inductive MockVal where
  | user : User → MockVal
  | program : Program → MockVal
  | cls : Class → MockVal
deriving Repr, DecidableEq

/-- Structure `MockDB` from src/db/mock.go: the nested map
`map[string]map[string]interface\x7b\x7d`, modelled as a total
function to optional cells (absent key = `none`). -/
structure MockDB where
  db : String → String → Option MockVal

/-- Method `(*MockDB).StoreUser`, src/db/mock.go lines 57 to 60:
`d.db[usersPath][u.UID] = u; return nil`.  The returned error is
always `none` (Go `nil`). -/
def MockDB.StoreUser (d : MockDB) (u : User) : MockDB × Option String :=
  ({ db := fun path key =>
      if path = usersPath ∧ key = u.UID then some (MockVal.user u)
      else d.db path key },
   none)

/-- Method `(*MockDB).LoadUser`, src/db/mock.go lines 49 to 55: the
type assertion `d.db[usersPath][uid].(User)`; on failure the
zero-value `User` is returned together with the error string. -/
def MockDB.LoadUser (d : MockDB) (uid : String) : User × Option String :=
  match d.db usersPath uid with
  | some (MockVal.user u) => (u, none)
  | _ => ({ UID := "", fields := [] }, some "invalid user ID")

end Db

open Cors Db

/-- Claim C1: for every config and every OPTIONS request whose origin,
requested method and requested header names all pass the three
matcher predicates, the negotiator answers with status 200 and an
empty body, reflects the literal request origin in the
Access-Control-Allow-Origin response header, and sets
Access-Control-Allow-Credentials to the literal string "true" exactly
when the config supports credentials. -/
theorem cors_preflight_accept_reflects_origin
    (c : CORSConfig) (next : Handler) (r : Request)
    (hm : r.method = "OPTIONS")
    (ho : c.OriginSupported (r.get "Origin") = true)
    (hme : c.MethodSupported (r.get "Access-Control-Request-Method") = true)
    (hh : c.HeadersSupported
      (goSplitCommaSpace (r.get "Access-Control-Request-Headers")) = true) :
    (withCORSConfig next c r).status = 200 ∧
    (withCORSConfig next c r).body = "" ∧
    (withCORSConfig next c r).getHeader "Access-Control-Allow-Origin" =
      some (r.get "Origin") ∧
    ((withCORSConfig next c r).getHeader "Access-Control-Allow-Credentials" =
      if c.SupportsCredentials then some "true" else none) := by
  simp only [withCORSConfig, hm, if_true, ho, hme, hh, Bool.not_true, Bool.or_self,
    Bool.false_or, if_false, reduceIte]
  cases hsc : c.SupportsCredentials <;> by_cases hma : c.MaxAge = 0 <;>
    simp [Response.getHeader, hsc, hma, List.find?]

/-- Witness for claim C1: the accepted probe of spec section 8
evaluated concretely. -/
theorem cors_preflight_accept_reflects_origin_witness :
    (withCORSConfig idleNext testCfg okReq).status = 200 ∧
    (withCORSConfig idleNext testCfg okReq).body = "" ∧
    (withCORSConfig idleNext testCfg okReq).getHeader "Access-Control-Allow-Origin" =
      some (okReq.get "Origin") ∧
    ((withCORSConfig idleNext testCfg okReq).getHeader "Access-Control-Allow-Credentials" =
      if testCfg.SupportsCredentials then some "true" else none) :=
  cors_preflight_accept_reflects_origin testCfg idleNext okReq rfl
    (by decide) (by decide) (by decide)

/-- Claim C2: for every config and every OPTIONS request failing any
of the three matcher predicates, the negotiator answers with the one
fixed Bad Request response, which carries status 400, no headers and
no body, independently of which conjunct failed. -/
theorem cors_preflight_reject_bad_request
    (c : CORSConfig) (next : Handler) (r : Request)
    (hm : r.method = "OPTIONS")
    (hfail : c.OriginSupported (r.get "Origin") = false ∨
      c.MethodSupported (r.get "Access-Control-Request-Method") = false ∨
      c.HeadersSupported
        (goSplitCommaSpace (r.get "Access-Control-Request-Headers")) = false) :
    withCORSConfig next c r = badRequestResponse ∧
    (withCORSConfig next c r).headers = [] ∧
    (withCORSConfig next c r).status = 400 := by
  have hresp : withCORSConfig next c r = badRequestResponse := by
    simp only [withCORSConfig, hm, if_true, reduceIte]
    rcases hfail with h | h | h <;> simp [h]
  exact ⟨hresp, by rw [hresp]; rfl, by rw [hresp]; rfl⟩

/-- Witness for claim C2: the rejected probe of spec section 8
(unsupported origin) evaluated concretely. -/
theorem cors_preflight_reject_bad_request_witness :
    withCORSConfig idleNext testCfg badOriginReq = badRequestResponse ∧
    (withCORSConfig idleNext testCfg badOriginReq).headers = [] ∧
    (withCORSConfig idleNext testCfg badOriginReq).status = 400 :=
  cors_preflight_reject_bad_request testCfg idleNext badOriginReq rfl
    (Or.inl (by decide))

/-- Claim C3, evaluation at the failing input: with MaxAge 600 the
accepted preflight carries an Access-Control-Max-Age header holding
the single code point U+0258 (the Go rune conversion of 600), not the
decimal string "600" that the claim and the W3C header grammar
require. -/
theorem cors_maxAge_header_rune_not_decimal :
    (withCORSConfig idleNext maxAgeCfg okReq).status = 200 ∧
    (withCORSConfig idleNext maxAgeCfg okReq).getHeader "Access-Control-Max-Age" =
      some (String.singleton (Char.ofNat 600)) ∧
    String.singleton (Char.ofNat 600) = "ɘ" ∧
    (withCORSConfig idleNext maxAgeCfg okReq).getHeader "Access-Control-Max-Age" ≠
      some "600" := by
  decide

/-- Claim C4, evaluation at the failing input: a preflight whose
Access-Control-Request-Headers header is absent splits to the
solitary empty token, which `HeadersSupported` does not special-case,
so the probe is rejected with Bad Request even though its origin and
method are allowed — the claimed acceptance does not happen. -/
theorem cors_absent_request_headers_rejected :
    noACRHReq.get "Access-Control-Request-Headers" = "" ∧
    goSplitCommaSpace "" = [""] ∧
    testCfg.OriginSupported (noACRHReq.get "Origin") = true ∧
    testCfg.MethodSupported (noACRHReq.get "Access-Control-Request-Method") = true ∧
    testCfg.HeadersSupported [""] = false ∧
    withCORSConfig idleNext testCfg noACRHReq = badRequestResponse := by
  decide

/-- Claim C5: for every config, every non-OPTIONS request is passed
unchanged to the inner handler and the inner handler's response is
returned verbatim, so the middleware sets no CORS header on it. -/
theorem cors_non_options_transparent
    (c : CORSConfig) (next : Handler) (r : Request)
    (hm : r.method ≠ "OPTIONS") :
    withCORSConfig next c r = next r := by
  unfold withCORSConfig
  rw [if_neg hm]

/-- Witness for claim C5: a GET request evaluated concretely. -/
theorem cors_non_options_transparent_witness :
    withCORSConfig idleNext testCfg getReq = idleNext getReq :=
  cors_non_options_transparent testCfg idleNext getReq (by decide)

/-- Claim C6: for every config and every OPTIONS request, the
response of the middleware does not depend on the inner handler at
all — the inner handler is never invoked on the preflight branch,
neither on accept nor on reject. -/
theorem cors_options_never_calls_inner
    (c : CORSConfig) (r : Request) (next₁ next₂ : Handler)
    (hm : r.method = "OPTIONS") :
    withCORSConfig next₁ c r = withCORSConfig next₂ c r := by
  unfold withCORSConfig
  rw [if_pos hm, if_pos hm]

/-- Witness for claim C6: two distinguishable inner handlers produce
the same preflight response on a concrete probe. -/
theorem cors_options_never_calls_inner_witness :
    withCORSConfig idleNext testCfg okReq = withCORSConfig otherNext testCfg okReq :=
  cors_options_never_calls_inner testCfg okReq idleNext otherNext rfl

/-- Claim C7: for every config, `HeadersSupported` is true exactly
when every name in the sequence matches, case-insensitively, some
entry of the allowed headers; in particular the empty sequence
succeeds vacuously, and one non-matching name makes the result false
no matter how the other names fare. -/
theorem cors_headersSupported_iff_all_match
    (c : CORSConfig) (names : List String) :
    c.HeadersSupported names = true ↔
      ∀ n ∈ names, ∃ a ∈ c.AllowedHeaders, goToUpper n = goToUpper a := by
  unfold CORSConfig.HeadersSupported
  by_cases h : names.length = 0
  · rw [if_pos h, List.length_eq_zero.mp h]
    simp
  · rw [if_neg h]
    simp [List.all_eq_true, List.any_eq_true]

/-- Witness for claim C7: the lower-cased name "content-type" matches
the allowed header "Content-Type" of the default policy. -/
theorem cors_headersSupported_iff_all_match_witness :
    defaultCfg.HeadersSupported ["content-type"] = true :=
  (cors_headersSupported_iff_all_match defaultCfg ["content-type"]).mpr (by decide)

/-- Claim C8: for every config the empty origin and the empty
requested method are rejected by their matchers, and a preflight
missing either header is answered with the same Bad Request response
as any unsupported one. -/
theorem cors_empty_origin_or_method_rejected
    (c : CORSConfig) (next : Handler) (r : Request) :
    c.OriginSupported "" = false ∧ c.MethodSupported "" = false ∧
    (r.method = "OPTIONS" →
      (r.get "Origin" = "" ∨ r.get "Access-Control-Request-Method" = "") →
      withCORSConfig next c r = badRequestResponse) := by
  refine ⟨rfl, rfl, ?_⟩
  intro hm hempty
  simp only [withCORSConfig, hm, if_true, reduceIte]
  rcases hempty with h | h <;>
    simp [h, CORSConfig.OriginSupported, CORSConfig.MethodSupported]

/-- Witness for claim C8: a bare OPTIONS request with no headers is
rejected under the test policy. -/
theorem cors_empty_origin_or_method_rejected_witness :
    testCfg.OriginSupported "" = false ∧ testCfg.MethodSupported "" = false ∧
    withCORSConfig idleNext testCfg bareOptionsReq = badRequestResponse :=
  have h := cors_empty_origin_or_method_rejected testCfg idleNext bareOptionsReq
  ⟨h.1, h.2.1, h.2.2 rfl (Or.inl rfl)⟩

/-- Claim C9: the default policy allows exactly the literal origin
"*", the nine standard HTTP method tokens, and the Content-Type
header, with credentials unsupported and max age omitted; its "*"
entry is matched literally, so only the exact origin string "*"
passes the origin matcher. -/
theorem cors_default_config_literal_star :
    defaultCfg.AllowedOrigins = ["*"] ∧
    defaultCfg.AllowedMethods =
      ["CONNECT", "DELETE", "GET", "HEAD", "OPTIONS", "PATCH", "POST", "PUT", "TRACE"] ∧
    defaultCfg.AllowedHeaders = ["Content-Type"] ∧
    defaultCfg.SupportsCredentials = false ∧
    defaultCfg.MaxAge = 0 ∧
    ∀ s : String, (defaultCfg.OriginSupported s = true ↔ s = "*") := by
  refine ⟨rfl, rfl, rfl, rfl, rfl, ?_⟩
  intro s
  unfold CORSConfig.OriginSupported defaultCfg
  by_cases h : s = ""
  · subst h
    simp
  · rw [if_neg h]
    simp

/-- Witness for claim C9: the literal origin "*" passes the default
policy's origin matcher. -/
theorem cors_default_config_literal_star_witness :
    defaultCfg.OriginSupported "*" = true :=
  (cors_default_config_literal_star.2.2.2.2.2 "*").mpr rfl

/-- Claim C10: in the mock document store, storing a user and then
loading by that user's UID returns the stored user with a nil error,
from any prior store state; the store itself reports no error. -/
theorem mockdb_store_load_user_roundtrip (d : MockDB) (u : User) :
    (d.StoreUser u).2 = none ∧
    (d.StoreUser u).1.LoadUser u.UID = (u, none) := by
  refine ⟨rfl, ?_⟩
  unfold MockDB.LoadUser MockDB.StoreUser
  simp

/-- Witness for claim C10: the round trip evaluated on the empty
store and a concrete user. -/
theorem mockdb_store_load_user_roundtrip_witness :
    ((MockDB.mk (fun _ _ => none)).StoreUser { UID := "u1", fields := [] }).1.LoadUser "u1" =
      ({ UID := "u1", fields := [] }, none) :=
  (mockdb_store_load_user_roundtrip (MockDB.mk (fun _ _ => none))
    { UID := "u1", fields := [] }).2
